import Mathlib

/-!
Verification of the element-reference / DOM-snapshot subsystem of the
browser-tools demo.

The JavaScript sources embedded here:
* the accessibility-tree content script (`__generateAccessibilityTree`,
  `__claudeElementMap`, `__claudeRefCounter`),
* `browser_element_script.js` (the element locator IIFE), and
* `browser_form_input_script.js` (the form-value setter IIFE).

Modelling conventions:
* A DOM element is a node of an inductive tree.  JavaScript object identity
  is modelled by a numeric id `eid`; the registry stores these ids.
* `WeakRef.deref` is modelled by a set `dead : List Nat` of element ids that
  have been garbage collected: `deref` fails exactly on those.
* An element that is alive (not in `dead`) but does not occur in the current
  document tree is "detached": `document.contains` is false for it.
* JavaScript `getAttribute` returns `null` for a missing attribute; this is
  `Option.none`.  Truthiness of strings is `≠ ""`.
* Machine integers do not occur; all JS numbers that appear are integers
  (counters, coordinates), modelled as `Nat`/`Int`.  String-to-number
  conversion is modelled for optionally-signed decimal integer literals,
  which is the only fragment the verified claims depend on.
* The scripts' `try`/`catch` wrappers never fire in the model because every
  modelled operation is a total function; "never throws" is expressed by the
  operations returning structured failure values.
-/

/-! ### Generic string helpers (JS `String.prototype` fragments) -/

/-- JS `toLowerCase` for the ASCII range (tag names, as the scripts use
it). -/
def lowerChar (c : Char) : Char :=
  if 'A' ≤ c ∧ c ≤ 'Z' then Char.ofNat (c.toNat + 32) else c

/-- Lowercase a string (ASCII). -/
def lowerStr (s : String) : String :=
  String.mk (s.data.map lowerChar)

/-- JS `trim`: strip leading and trailing whitespace. -/
def trimStr (s : String) : String :=
  String.mk (((s.data.dropWhile Char.isWhitespace).reverse.dropWhile Char.isWhitespace).reverse)

/-- Split a character list at a separator character (JS `split(sep)` for a
one-character separator). -/
def splitChar (sep : Char) : List Char → List (List Char)
  | [] => [[]]
  | c :: rest =>
    match splitChar sep rest with
    | [] => [[]]
    | g :: gs => if c = sep then [] :: g :: gs else (c :: g) :: gs

/-- JS `s.split(sep)` for a one-character separator. -/
def strSplit (s : String) (sep : Char) : List String :=
  (splitChar sep s.data).map String.mk

/-- Does the first list start with the second? -/
def listStartsWith : List Char → List Char → Bool
  | _, [] => true
  | [], _ :: _ => false
  | a :: as, b :: bs => a == b && listStartsWith as bs

/-- Does the first list contain the second as a contiguous sublist? -/
def listContainsSub : List Char → List Char → Bool
  | [], n => n.isEmpty
  | a :: t, n => listStartsWith (a :: t) n || listContainsSub t n

/-- JS `haystack.includes(needle)`. -/
def strIncludes (h n : String) : Bool :=
  listContainsSub h.data n.data

/-- Core of `collapseWs`: the flag records whether the previous character
was whitespace (so a run is replaced by a single space). -/
def collapseWsAux : List Char → Bool → List Char
  | [], _ => []
  | c :: cs, prevWs =>
    if c.isWhitespace then
      if prevWs then collapseWsAux cs true else ' ' :: collapseWsAux cs true
    else c :: collapseWsAux cs false

/-- JS `s.replace(/\s+/g, " ")`: every maximal whitespace run becomes one
space. -/
def collapseWs (s : String) : String :=
  String.mk (collapseWsAux s.data false)

/-- JS `s.replace(/"/g, '\\"')`. -/
def escapeQuotes (s : String) : String :=
  String.mk (s.data.foldr (fun c acc => (if c = '"' then ['\\', '"'] else [c]) ++ acc) [])

/-- JS `"  ".repeat depth`. -/
def indentStr (depth : Nat) : String :=
  String.mk (List.replicate (2 * depth) ' ')

/-! ### The DOM model -/

/-- The per-element data the scripts read.  `display`, `visibility`,
`opacity` are the *computed* style strings; `styleDisplay`,
`styleVisibility` are the *inline* style strings read by the locator.
`value`, `checked`, `selectedIndex`, `caret` are the live DOM properties of
form controls (`caret` models the cursor position set by
`setSelectionRange`). -/
structure ElemData where
  eid : Nat
  tagName : String
  attrs : List (String × String)
  display : String := "block"
  visibility : String := "visible"
  opacity : String := "1"
  offsetWidth : Nat := 10
  offsetHeight : Nat := 10
  rectTop : Int := 0
  rectBottom : Int := 10
  rectLeft : Int := 0
  rectRight : Int := 10
  value : String := ""
  checked : Bool := false
  selectedIndex : Int := 0
  disabled : Bool := false
  styleDisplay : String := ""
  styleVisibility : String := ""
  caret : Nat := 0
  deriving Repr, DecidableEq

/-- A DOM node: an element with child nodes, or a text node. -/
inductive DomNode where
  | elem (d : ElemData) (children : List DomNode)
  | text (s : String)
  deriving Repr

/-- JS `element.getAttribute(name)`: first binding, `none` when absent. -/
def lookupAttr : List (String × String) → String → Option String
  | [], _ => none
  | (k, v) :: rest, n => if k = n then some v else lookupAttr rest n

/-- JS `element.getAttribute name` on the element data. -/
def getAttr (d : ElemData) (n : String) : Option String :=
  lookupAttr d.attrs n

/-- JS `element.id` (reflects the `id` attribute, `""` when absent). -/
def idProp (d : ElemData) : String :=
  (getAttr d "id").getD ""

/-- JS `element.className` (reflects the `class` attribute). -/
def classProp (d : ElemData) : String :=
  (getAttr d "class").getD ""

/-- JS `element.name` (reflects the `name` attribute). -/
def nameProp (d : ElemData) : String :=
  (getAttr d "name").getD ""

/-- JS `input.type` IDL property: reflects the `type` attribute with
default `"text"` (normalisation of invalid type strings is not modelled;
no claim depends on it). -/
def inputTypeProp (d : ElemData) : String :=
  (getAttr d "type").getD "text"

mutual
/-- JS `node.textContent`: concatenation of all descendant text. -/
def textContent : DomNode → String
  | .text s => s
  | .elem _ cs => textContentList cs

/-- The `textContent` of a list of nodes, in order. -/
def textContentList : List DomNode → String
  | [] => ""
  | c :: cs => textContent c ++ textContentList cs
end

/-- Concatenation of the `textContent` of the *direct text-node children*
only (the `childNodes` loops of the content script). -/
def directTextOf (cs : List DomNode) : String :=
  match cs with
  | [] => ""
  | .text s :: rest => s ++ directTextOf rest
  | .elem _ _ :: rest => directTextOf rest

/-! ### The reference registry (`__claudeElementMap` / `__claudeRefCounter`)

The map is a list of `(reference string, element id)` pairs in insertion
order: JS `for (… in …)` over an object whose keys are all of the
non-index form `"ref_N"` iterates in insertion order, and minting appends.
-/

/-- Page-scoped registry state. -/
structure Registry where
  elementMap : List (String × Nat)
  refCounter : Nat
  deriving Repr, DecidableEq

/-- JS `new WeakRef(element).deref()`: fails exactly when the element has been
garbage collected. -/
def derefEntry (dead : List Nat) (k : Nat) : Option Nat :=
  if k ∈ dead then none else some k

/-- The reference id string `"ref_" + n`. -/
def refName (n : Nat) : String :=
  "ref_" ++ Nat.repr n

/-- The scan of `processElement`: the first registry entry whose weak handle
still dereferences to the given element. -/
def findExistingRef (dead : List Nat) : List (String × Nat) → Nat → Option String
  | [], _ => none
  | (r, k) :: rest, e =>
    if derefEntry dead k = some e then some r else findExistingRef dead rest e

/-- Lines 375–389 of the content script: reuse the existing reference for
this element if one still dereferences to it, else mint
`"ref_" + ++counter` and store a weak handle. -/
def allocOrReuse (dead : List Nat) (reg : Registry) (e : Nat) : String × Registry :=
  match findExistingRef dead reg.elementMap e with
  | some r => (r, reg)
  | none =>
      let n := reg.refCounter + 1
      (refName n, ⟨reg.elementMap ++ [(refName n, e)], n⟩)

/-- JS `window.__claudeElementMap[ref]`. -/
def lookupRef : List (String × Nat) → String → Option Nat
  | [], _ => none
  | (r, k) :: rest, s => if r = s then some k else lookupRef rest s

/-- JS `delete window.__claudeElementMap[ref]`. -/
def deleteRef (m : List (String × Nat)) (r : String) : List (String × Nat) :=
  m.filter (fun p => p.1 != r)

/-- The stale-entry sweep at the end of a snapshot pass (lines 436–441):
delete every entry whose weak handle no longer dereferences. -/
def sweepMap (dead : List Nat) (m : List (String × Nat)) : List (String × Nat) :=
  m.filter (fun p => (derefEntry dead p.2).isSome)

/-! ### SnapshotEngine (`__generateAccessibilityTree`) -/

/-- Snapshot-time window state. -/
structure Window where
  innerWidth : Int
  innerHeight : Int
  deriving Repr, DecidableEq

/-- The `filterType` argument: `"all"`, `"interactive"`, or absent
(default policy). -/
inductive FilterType where
  | all
  | interactive
  | absent
  deriving Repr, DecidableEq, BEq

/-- The fixed data threaded through the traversal: the document root (used
for document-wide queries), the window, the garbage-collection state and
the requested filter. -/
structure SnapCtx where
  doc : DomNode
  win : Window
  dead : List Nat
  filter : FilterType

/-- The tag→role table of `getRole`, applied when no truthy `role`
attribute is present. -/
def tagRole (d : ElemData) : String :=
  let tag := lowerStr d.tagName
  let type? := getAttr d "type"
  if tag = "a" then "link"
  else if tag = "button" then "button"
  else if tag = "input" then
    if type? = some "submit" ∨ type? = some "button" then "button"
    else if type? = some "checkbox" then "checkbox"
    else if type? = some "radio" then "radio"
    else if type? = some "file" then "button"
    else "textbox"
  else if tag = "select" then "combobox"
  else if tag = "textarea" then "textbox"
  else if tag = "h1" ∨ tag = "h2" ∨ tag = "h3" ∨ tag = "h4" ∨ tag = "h5" ∨ tag = "h6" then "heading"
  else if tag = "img" then "image"
  else if tag = "nav" then "navigation"
  else if tag = "main" then "main"
  else if tag = "header" then "banner"
  else if tag = "footer" then "contentinfo"
  else if tag = "section" then "region"
  else if tag = "article" then "article"
  else if tag = "aside" then "complementary"
  else if tag = "form" then "form"
  else if tag = "table" then "table"
  else if tag = "ul" ∨ tag = "ol" then "list"
  else if tag = "li" then "listitem"
  else if tag = "label" then "label"
  else "generic"

/-- The script's `getRole`: a truthy explicit `role` attribute wins, else the tag table. -/
def getRole (d : ElemData) : String :=
  match getAttr d "role" with
  | some r => if r = "" then tagRole d else r
  | none => tagRole d

mutual
/-- Generic `querySelector` helper for `option[selected]` / `label[for="…"]`-style
searches: first node in pre-order satisfying the predicate data. -/
def findFirstElem (p : ElemData → Bool) : DomNode → Option (ElemData × List DomNode)
  | .text _ => none
  | .elem d cs => if p d then some (d, cs) else findFirstElemList p cs

def findFirstElemList (p : ElemData → Bool) : List DomNode → Option (ElemData × List DomNode)
  | [] => none
  | c :: cs =>
    match findFirstElem p c with
    | some r => some r
    | none => findFirstElemList p cs
end

/-- JS `select.querySelector("option[selected]")`: first descendant option
element carrying a `selected` attribute. -/
def findSelectedAttrOption (cs : List DomNode) : Option (ElemData × List DomNode) :=
  findFirstElemList (fun d => lowerStr d.tagName == "option" && (getAttr d "selected").isSome) cs

/-- The `option` element children of a node (helper for `optionsOf`). -/
def optionChildren (cs : List DomNode) : List (ElemData × List DomNode) :=
  cs.foldr
    (fun c acc =>
      match c with
      | .elem d cs' => if lowerStr d.tagName == "option" then (d, cs') :: acc else acc
      | .text _ => acc)
    []

/-- JS `select.options`: option children of the select plus option children of
its optgroup children, in tree order. -/
def optionsOf (cs : List DomNode) : List (ElemData × List DomNode) :=
  cs.foldr
    (fun c acc =>
      match c with
      | .elem d cs' =>
          if lowerStr d.tagName == "option" then (d, cs') :: acc
          else if lowerStr d.tagName == "optgroup" then optionChildren cs' ++ acc
          else acc
      | .text _ => acc)
    []

/-- JS `document.querySelector('label[for="' + id + '"]')` (the corner case of
an id containing a quote, which would break the JS selector string, is not
modelled). -/
def findLabelFor (doc : DomNode) (idv : String) : Option (ElemData × List DomNode) :=
  findFirstElem (fun d => lowerStr d.tagName == "label" && getAttr d "for" == some idv) doc

/-- The JS pattern `if (x && x.trim()) return x.trim()` for an attribute. -/
def attrTrimmed (d : ElemData) (n : String) : Option String :=
  match getAttr d n with
  | some s => if s ≠ "" ∧ trimStr s ≠ "" then some (trimStr s) else none
  | none => none

/-- The script's `getCleanName`: the accessible-name derivation, first match wins.
`doc` is the document root, used for the `label[for=…]` query. -/
def getCleanName (doc : DomNode) (d : ElemData) (cs : List DomNode) : String :=
  let tag := lowerStr d.tagName
  -- For selects, the selected option text
  let fromSelect : Option String :=
    if tag = "select" then
      let selectedOption :=
        match findSelectedAttrOption cs with
        | some o => some o
        | none =>
            if 0 ≤ d.selectedIndex then (optionsOf cs).get? d.selectedIndex.toNat else none
      match selectedOption with
      | some o => if textContentList o.2 ≠ "" then some (trimStr (textContentList o.2)) else none
      | none => none
    else none
  match fromSelect with
  | some s => s
  | none =>
  match attrTrimmed d "aria-label" with
  | some s => s
  | none =>
  match attrTrimmed d "placeholder" with
  | some s => s
  | none =>
  match attrTrimmed d "title" with
  | some s => s
  | none =>
  match attrTrimmed d "alt" with
  | some s => s
  | none =>
  -- For form labels
  let fromLabel : Option String :=
    if idProp d ≠ "" then
      match findLabelFor doc (idProp d) with
      | some l =>
          if textContentList l.2 ≠ "" ∧ trimStr (textContentList l.2) ≠ "" then
            some (trimStr (textContentList l.2))
          else none
      | none => none
    else none
  match fromLabel with
  | some s => s
  | none =>
  -- For inputs with values
  let fromInput : Option String :=
    if tag = "input" then
      let type := (getAttr d "type").getD ""
      let valueAttr := getAttr d "value"
      let fromSubmit : Option String :=
        match valueAttr with
        | some v => if type = "submit" ∧ v ≠ "" ∧ trimStr v ≠ "" then some (trimStr v) else none
        | none => none
      match fromSubmit with
      | some s => some s
      | none =>
          if d.value ≠ "" ∧ d.value.length < 50 ∧ trimStr d.value ≠ "" then
            some (trimStr d.value)
          else none
    else none
  match fromInput with
  | some s => s
  | none =>
  -- For buttons, links, summaries: direct text-node children only
  let fromDirect : Option String :=
    if tag = "button" ∨ tag = "a" ∨ tag = "summary" then
      if trimStr (directTextOf cs) ≠ "" then some (trimStr (directTextOf cs)) else none
    else none
  match fromDirect with
  | some s => s
  | none =>
  -- For headings, full text capped at 100
  let fromHeading : Option String :=
    if tag = "h1" ∨ tag = "h2" ∨ tag = "h3" ∨ tag = "h4" ∨ tag = "h5" ∨ tag = "h6" then
      if textContentList cs ≠ "" ∧ trimStr (textContentList cs) ≠ "" then
        some ((trimStr (textContentList cs)).take 100)
      else none
    else none
  match fromHeading with
  | some s => s
  | none =>
  -- For images, filename from src
  let fromImg : Option String :=
    if tag = "img" then
      match getAttr d "src" with
      | some src =>
          if src ≠ "" then
            some ("Image: " ++ ((strSplit ((strSplit src '/').getLastD "") '?').headD ""))
          else none
      | none => none
    else none
  match fromImg with
  | some s => s
  | none =>
  -- Generic: direct text-node content, ≥ 3 chars, truncated at 50
  let dtc := directTextOf cs
  if dtc ≠ "" ∧ trimStr dtc ≠ "" ∧ 3 ≤ (trimStr dtc).length then
    if 50 < (trimStr dtc).length then (trimStr dtc).take 50 ++ "..." else trimStr dtc
  else ""

/-- The script's `isVisible`: computed style not hidden and a non-zero layout box. -/
def isVisible (d : ElemData) : Bool :=
  d.display != "none" && d.visibility != "hidden" && d.opacity != "0" &&
    decide (0 < d.offsetWidth) && decide (0 < d.offsetHeight)

/-- The script's `isInteractive`: native interactive tag, click handler, tabindex,
interactive role, or contenteditable. -/
def isInteractive (d : ElemData) : Bool :=
  let tag := lowerStr d.tagName
  ["a", "button", "input", "select", "textarea", "details", "summary"].contains tag ||
    (getAttr d "onclick").isSome ||
    (getAttr d "tabindex").isSome ||
    getAttr d "role" == some "button" ||
    getAttr d "role" == some "link" ||
    getAttr d "contenteditable" == some "true"

/-- The script's `isSemantic`: heading/landmark tag or any explicit `role` attribute. -/
def isSemantic (d : ElemData) : Bool :=
  let tag := lowerStr d.tagName
  ["h1", "h2", "h3", "h4", "h5", "h6", "nav", "main", "header", "footer",
      "section", "article", "aside"].contains tag ||
    (getAttr d "role").isSome

/-- The script's `isContainerElement`: structural containers likely to hold interactive
descendants. -/
def isContainerElement (d : ElemData) : Bool :=
  let role := getAttr d "role"
  let tag := lowerStr d.tagName
  let className := classProp d
  let id := idProp d
  role == some "search" || role == some "form" || role == some "group" ||
    role == some "toolbar" || role == some "navigation" ||
    tag == "form" || tag == "fieldset" || tag == "nav" ||
    strIncludes id "search" || strIncludes className "search" ||
    strIncludes id "form" || strIncludes className "form" ||
    strIncludes id "menu" || strIncludes className "menu" ||
    strIncludes id "nav" || strIncludes className "nav"

/-- The keyword list for functional generic containers. -/
def functionalKeywords : List String :=
  ["search", "dropdown", "menu", "modal", "dialog", "popup", "toolbar",
    "sidebar", "content", "text"]

/-- The script's `shouldIncludeElement`: the per-node inclusion decision. -/
def shouldIncludeElement (ctx : SnapCtx) (d : ElemData) (cs : List DomNode) : Bool :=
  let tag := lowerStr d.tagName
  if ["script", "style", "meta", "link", "title", "noscript"].contains tag then false
  else if getAttr d "aria-hidden" == some "true" then false
  else if !isVisible d then false
  else
    let inViewport :=
      decide (d.rectTop < ctx.win.innerHeight) && decide (0 < d.rectBottom) &&
        decide (d.rectLeft < ctx.win.innerWidth) && decide (0 < d.rectRight)
    if ctx.filter != FilterType.all && !inViewport then false
    else if ctx.filter == FilterType.interactive then isInteractive d
    else if isInteractive d then true
    else if isSemantic d then true
    else if 0 < (getCleanName ctx.doc d cs).length then true
    else
      let role := getRole d
      if role == "generic" && (tag == "div" || tag == "span") then
        let id := idProp d
        let className := classProp d
        let cleanName := getCleanName ctx.doc d cs
        if cleanName != "" && 3 ≤ cleanName.length then true
        else if functionalKeywords.any (fun k => strIncludes id k || strIncludes className k) then
          true
        else false
      else if isContainerElement d then true
      else false

/-- Truthiness of an attribute (JS `if (element.getAttribute(n))`). -/
def attrTruthy (d : ElemData) (n : String) : Bool :=
  match getAttr d n with
  | some s => s != ""
  | none => false

/-- The serialized line for one included node: indentation, `- role`,
optional collapsed/escaped quoted name capped at 100, `[ref=…]`, then the
`id`/`href`/`type`/`placeholder` annotations. -/
def emitLine (ctx : SnapCtx) (d : ElemData) (cs : List DomNode) (depth : Nat) (r : String) :
    String :=
  let role := getRole d
  let name := getCleanName ctx.doc d cs
  let l0 := indentStr depth ++ "- " ++ role
  let l1 :=
    if name ≠ "" then
      l0 ++ " \"" ++ escapeQuotes ((collapseWs name).take 100) ++ "\""
    else l0
  let l2 := l1 ++ " [ref=" ++ r ++ "]"
  let l3 := if idProp d ≠ "" then l2 ++ " id=\"" ++ idProp d ++ "\"" else l2
  let l4 := if attrTruthy d "href" then l3 ++ " href=\"" ++ (getAttr d "href").getD "" ++ "\"" else l3
  let l5 := if attrTruthy d "type" then l4 ++ " type=\"" ++ (getAttr d "type").getD "" ++ "\"" else l4
  if attrTruthy d "placeholder" then
    l5 ++ " placeholder=\"" ++ (getAttr d "placeholder").getD "" ++ "\""
  else l5

/-- Traversal state: the emitted lines (in order) and the registry. -/
structure SnapState where
  result : List String
  reg : Registry
  deriving Repr

mutual
/-- The script's `processElement`: depth-capped, emits a line when the node is included
(the root, depth 0, always is), then always recurses into the children,
advancing the depth only when the node was included.  A text node has no
`tagName` and returns immediately. -/
def processElement (ctx : SnapCtx) (n : DomNode) (depth : Nat) (st : SnapState) : SnapState :=
  if 15 < depth then st
  else
    match n with
    | .text _ => st
    | .elem d cs =>
        let shouldInclude := shouldIncludeElement ctx d cs
        let actuallyInclude := shouldInclude || depth == 0
        let st1 :=
          if actuallyInclude then
            let ar := allocOrReuse ctx.dead st.reg d.eid
            { result := st.result ++ [emitLine ctx d cs depth ar.1], reg := ar.2 }
          else st
        if depth < 15 then
          processChildren ctx cs (if actuallyInclude then depth + 1 else depth) st1
        else st1

/-- The `element.children` loop (text nodes are not elements and are
handled by `processElement`'s tagName guard). -/
def processChildren (ctx : SnapCtx) (ns : List DomNode) (depth : Nat) (st : SnapState) :
    SnapState :=
  match ns with
  | [] => st
  | c :: rest => processChildren ctx rest depth (processElement ctx c depth st)
end

/-- The post-filter regex `/^\s*- generic \[ref=ref_\d+\]$/`. -/
def isBareGenericLine (s : String) : Bool :=
  let rest0 := s.data.dropWhile Char.isWhitespace
  match
    (let lit := "- generic [ref=ref_".data
     (listStartsWith rest0 lit, rest0.drop lit.length)) with
  | (false, _) => false
  | (true, rest) =>
      let ds := rest.takeWhile Char.isDigit
      let rest2 := rest.dropWhile Char.isDigit
      !ds.isEmpty && rest2 == [']']

/-- The return value of `__generateAccessibilityTree`. -/
structure SnapResult where
  pageContent : String
  viewportWidth : Int
  viewportHeight : Int
  deriving Repr, DecidableEq

/-- The script's `__generateAccessibilityTree(filterType)`: traverse from
`document.body` when present, then sweep stale registry entries, then
post-filter bare nameless attribute-less generic lines and join. -/
def generateAccessibilityTree (body? : Option DomNode) (w : Window) (dead : List Nat)
    (filter : FilterType) (reg : Registry) : SnapResult × Registry :=
  let st0 : SnapState := ⟨[], reg⟩
  let st1 :=
    match body? with
    | some body => processElement ⟨body, w, dead, filter⟩ body 0 st0
    | none => st0
  let cleanedMap := sweepMap dead st1.reg.elementMap
  let filteredResult := st1.result.filter (fun line => !isBareGenericLine line)
  (⟨String.intercalate "\n" filteredResult, w.innerWidth, w.innerHeight⟩,
    ⟨cleanedMap, st1.reg.refCounter⟩)

/-! ### ElementLocator (`browser_element_script.js`) -/

mutual
/-- JS `document.contains` plus retrieval: find the element with the given
identity in the document tree. -/
def findElem : DomNode → Nat → Option (ElemData × List DomNode)
  | .text _, _ => none
  | .elem d cs, k => if d.eid = k then some (d, cs) else findElemList cs k

def findElemList : List DomNode → Nat → Option (ElemData × List DomNode)
  | [], _ => none
  | c :: cs, k =>
    match findElem c k with
    | some r => some r
    | none => findElemList cs k
end

/-- The shared failure message of both interaction scripts. -/
def notFoundMsg (elementRef : String) : String :=
  "No element found with reference: \"" ++ elementRef ++
    "\". The element may have been removed from the page."

/-- The locator's return value.  `failure` is the `{success:false, action,
message}` envelope; `success` carries the coordinates, descriptor,
attribute snapshot, rectangle and flags of the script's success object. -/
inductive LocResult where
  | failure (action : String) (message : String)
  | success (coordinates : Rat × Rat) (elementInfo : String) (elementRef : String)
      (rectLeft rectTop rectRight rectBottom rectWidth rectHeight : Int)
      (attrType attrRole attrAriaLabel attrText : String)
      (isVisibleFlag isInteractableFlag : Bool)
  deriving Repr, DecidableEq

/-- The `get_element` IIFE: resolve the reference (deleting the entry when
the element is collected or detached), scroll into view, flush layout and
report geometry.  Scrolling and the layout flush mutate nothing the model
tracks. -/
def getElementScript (doc : DomNode) (dead : List Nat) (emap : List (String × Nat))
    (elementRef : String) : LocResult × List (String × Nat) :=
  match lookupRef emap elementRef with
  | none => (.failure "get_element" (notFoundMsg elementRef), emap)
  | some k =>
      match (if k ∈ dead then none else findElem doc k) with
      | none => (.failure "get_element" (notFoundMsg elementRef), deleteRef emap elementRef)
      | some (d, cs) =>
          let width := d.rectRight - d.rectLeft
          let height := d.rectBottom - d.rectTop
          let clickX : Rat := (d.rectLeft : Rat) + (width : Rat) / 2
          let clickY : Rat := (d.rectTop : Rat) + (height : Rat) / 2
          let elementInfo :=
            lowerStr d.tagName ++ (if idProp d ≠ "" then "#" ++ idProp d else "") ++
              (if classProp d ≠ "" then
                "." ++ String.intercalate "." ((strSplit (classProp d) ' ').filter (· ≠ ""))
              else "")
          (.success (clickX, clickY) elementInfo elementRef
            d.rectLeft d.rectTop d.rectRight d.rectBottom width height
            ((getAttr d "type").getD "") ((getAttr d "role").getD "")
            ((getAttr d "aria-label").getD "")
            ((textContentList cs).take 100)
            (decide (0 < width) && decide (0 < height))
            (!d.disabled && d.styleDisplay != "none" && d.styleVisibility != "hidden"),
           emap)

/-! ### ValueSetter (`browser_form_input_script.js`) -/

/-- The JavaScript values the form-input script distinguishes.  Only
integer numbers are modelled (see the header). -/
inductive JSValue where
  | str (s : String)
  | num (n : Int)
  | bool (b : Bool)
  | null
  | undef
  deriving Repr, DecidableEq

/-- JS `String(v)`. -/
def jsToString : JSValue → String
  | .str s => s
  | .num n => toString n
  | .bool true => "true"
  | .bool false => "false"
  | .null => "null"
  | .undef => "undefined"

/-- Digit-list value (helper for `strToNumber`). -/
def digitsToNat (ds : List Char) : Nat :=
  ds.foldl (fun a c => 10 * a + (c.toNat - '0'.toNat)) 0

/-- JS `Number(s)` restricted to optionally-signed decimal integer
literals; `none` is `NaN`.  (`Number("") = 0` as in JS.) -/
def strToNumber (s : String) : Option Int :=
  let t := trimStr s
  if t = "" then some 0
  else
    match t.data with
    | '-' :: ds => if !ds.isEmpty && ds.all Char.isDigit then some (-(Int.ofNat (digitsToNat ds))) else none
    | '+' :: ds => if !ds.isEmpty && ds.all Char.isDigit then some (Int.ofNat (digitsToNat ds)) else none
    | ds => if !ds.isEmpty && ds.all Char.isDigit then some (Int.ofNat (digitsToNat ds)) else none

/-- JS `Number(v)`; `none` is `NaN`. -/
def jsToNumber : JSValue → Option Int
  | .str s => strToNumber s
  | .num n => some n
  | .bool b => some (if b then 1 else 0)
  | .null => some 0
  | .undef => none

/-- JS `option.text`: descendant text, stripped and whitespace-collapsed. -/
def optText (o : ElemData × List DomNode) : String :=
  trimStr (collapseWs (textContentList o.2))

/-- JS `option.value`: the `value` attribute when present, else the text. -/
def optValue (o : ElemData × List DomNode) : String :=
  match getAttr o.1 "value" with
  | some v => v
  | none => optText o

/-- JS `select.value`: the value of the option at `selectedIndex`, or `""`
(selectedness is carried entirely by `selectedIndex` in the model). -/
def selectValue (d : ElemData) (cs : List DomNode) : String :=
  if 0 ≤ d.selectedIndex then
    match (optionsOf cs).get? d.selectedIndex.toNat with
    | some o => optValue o
    | none => ""
  else ""

/-- The option-matching loop of the select branch: the first index whose
option matches the stringified value by value or by text. -/
def firstMatchIdxAux (s : String) : List (ElemData × List DomNode) → Nat → Option Nat
  | [], _ => none
  | o :: rest, i =>
    if optValue o == s || optText o == s then some i else firstMatchIdxAux s rest (i + 1)

/-- First matching option index (value or text equals the string). -/
def firstMatchIdx (options : List (ElemData × List DomNode)) (s : String) : Option Nat :=
  firstMatchIdxAux s options 0

/-- The result envelope of the form-input script: `{success:false, action,
message}` or the success record with its `previous_value` / `new_value`. -/
inductive FormResult where
  | failure (action : String) (message : String)
  | success (action : String) (ref : String) (element_type : String)
      (previous_value : JSValue) (new_value : JSValue) (message : String)
  deriving Repr, DecidableEq

/-- Did the script succeed (`success: true`)? -/
def FormResult.isSuccess : FormResult → Bool
  | .failure _ _ => false
  | .success _ _ _ _ _ _ => true

/-- Observable effects of the control-dispatch part of the script: the
element's state afterwards, whether `focus()` ran, and the synthetic
events dispatched, in order, with their `bubbles` flag. -/
structure FormEffects where
  elem : ElemData
  focused : Bool
  events : List (String × Bool)
  deriving Repr, DecidableEq

/-- The control dispatch of the form-input IIFE (its body after the
reference has been resolved and the element scrolled into view), branch
order as in the source.  Browser-side sanitisation of assigned values
(range clamping, date validation) is not modelled; no claim depends on
it. -/
def applyFormInput (d : ElemData) (cs : List DomNode) (elementRef : String)
    (inputValue : JSValue) : FormResult × FormEffects :=
  let tag := lowerStr d.tagName
  if tag = "select" then
    let previousValue := selectValue d cs
    let options := optionsOf cs
    let valueStr := jsToString inputValue
    match firstMatchIdx options valueStr with
    | none =>
        (.failure "form_input"
          ("Option \"" ++ valueStr ++ "\" not found. Available options: " ++
            String.intercalate ", "
              (options.map (fun o => "\"" ++ optText o ++ "\" (value: \"" ++ optValue o ++ "\")"))),
         ⟨d, false, []⟩)
    | some i =>
        let d' := { d with selectedIndex := Int.ofNat i }
        (.success "form_input" elementRef "select" (.str previousValue)
          (.str (selectValue d' cs)) ("Selected option \"" ++ valueStr ++ "\" in dropdown"),
         ⟨d', true, [("change", true), ("input", true)]⟩)
  else if tag = "input" ∧ inputTypeProp d = "checkbox" then
    let previousValue := d.checked
    match inputValue with
    | .bool b =>
        let d' := { d with checked := b }
        (.success "form_input" elementRef "checkbox" (.bool previousValue) (.bool d'.checked)
          ("Checkbox " ++ (if d'.checked then "checked" else "unchecked")),
         ⟨d', true, [("change", true), ("input", true)]⟩)
    | _ =>
        (.failure "form_input" "Checkbox requires a boolean value (true/false)", ⟨d, false, []⟩)
  else if tag = "input" ∧ inputTypeProp d = "radio" then
    let previousValue := d.checked
    let radioGroup := nameProp d
    let d' := { d with checked := true }
    (.success "form_input" elementRef "radio" (.bool previousValue) (.bool d'.checked)
      ("Radio button selected" ++
        (if radioGroup ≠ "" then " in group \"" ++ radioGroup ++ "\"" else "")),
     ⟨d', true, [("change", true), ("input", true)]⟩)
  else if tag = "input" ∧
      (inputTypeProp d = "date" ∨ inputTypeProp d = "time" ∨
        inputTypeProp d = "datetime-local" ∨ inputTypeProp d = "month" ∨
        inputTypeProp d = "week") then
    let previousValue := d.value
    let d' := { d with value := jsToString inputValue }
    (.success "form_input" elementRef (inputTypeProp d) (.str previousValue) (.str d'.value)
      ("Set " ++ inputTypeProp d ++ " to \"" ++ d'.value ++ "\""),
     ⟨d', true, [("change", true), ("input", true)]⟩)
  else if tag = "input" ∧ inputTypeProp d = "range" then
    let previousValue := d.value
    match jsToNumber inputValue with
    | none => (.failure "form_input" "Range input requires a numeric value", ⟨d, false, []⟩)
    | some numValue =>
        let d' := { d with value := toString numValue }
        (.success "form_input" elementRef "range" (.str previousValue) (.str d'.value)
          ("Set range to " ++ d'.value ++ " (min: " ++ (getAttr d "min").getD "" ++ ", max: " ++
            (getAttr d "max").getD "" ++ ")"),
         ⟨d', true, [("change", true), ("input", true)]⟩)
  else if tag = "input" ∧ inputTypeProp d = "number" then
    let previousValue := d.value
    if (jsToNumber inputValue).isNone && inputValue != JSValue.str "" then
      (.failure "form_input" "Number input requires a numeric value", ⟨d, false, []⟩)
    else
      let d' := { d with value := jsToString inputValue }
      (.success "form_input" elementRef "number" (.str previousValue) (.str d'.value)
        ("Set number input to " ++ d'.value),
       ⟨d', true, [("change", true), ("input", true)]⟩)
  else if tag = "input" ∨ tag = "textarea" then
    let previousValue := d.value
    let newValue := jsToString inputValue
    let d' := { d with value := newValue, caret := newValue.length }
    let elementType := if tag = "textarea" then "textarea" else inputTypeProp d
    (.success "form_input" elementRef elementType (.str previousValue) (.str d'.value)
      ("Set " ++ elementType ++ " value to \"" ++ d'.value ++ "\""),
     ⟨d', true, [("change", true), ("input", true)]⟩)
  else
    (.failure "form_input"
      ("Element type \"" ++ d.tagName ++ "\" is not a supported form input"), ⟨d, false, []⟩)

/-- The whole `form_input` IIFE: the same resolution prologue as the
locator (including stale-entry deletion), then the control dispatch.
`none` in the third component means no element was reached. -/
def formInputScript (doc : DomNode) (dead : List Nat) (emap : List (String × Nat))
    (elementRef : String) (inputValue : JSValue) :
    FormResult × List (String × Nat) × Option FormEffects :=
  match lookupRef emap elementRef with
  | none => (.failure "form_input" (notFoundMsg elementRef), emap, none)
  | some k =>
      match (if k ∈ dead then none else findElem doc k) with
      | none => (.failure "form_input" (notFoundMsg elementRef), deleteRef emap elementRef, none)
      | some (d, cs) =>
          let r := applyFormInput d cs elementRef inputValue
          (r.1, emap, some r.2)

/-! ### The registry over a page session

The operations that mutate `__claudeElementMap` / `__claudeRefCounter`
during a page session: an allocation during a snapshot pass, the deletion
performed by a failed resolution, and the end-of-snapshot sweep.  Each
operation carries the garbage-collection state at the time it runs. -/

/-- One registry mutation. -/
inductive RegOp where
  | alloc (e : Nat) (dead : List Nat)
  | failedLookup (r : String)
  | sweep (dead : List Nat)
  deriving Repr

/-- Apply one registry mutation. -/
def regStep (reg : Registry) : RegOp → Registry
  | .alloc e dead => (allocOrReuse dead reg e).2
  | .failedLookup r => ⟨deleteRef reg.elementMap r, reg.refCounter⟩
  | .sweep dead => ⟨sweepMap dead reg.elementMap, reg.refCounter⟩

/-- Run a session trace. -/
def regRun (reg : Registry) (ops : List RegOp) : Registry :=
  ops.foldl regStep reg

/-- The freshly-created page registry. -/
def regInit : Registry :=
  ⟨[], 0⟩

/-! ### Decimal numerals: `Nat.repr` is injective

`refName` freshness (claim C10) rests on distinct counters giving distinct
`"ref_N"` strings; core provides no injectivity lemma for `Nat.repr`, so it
is proved here from the structure of `Nat.toDigitsCore`. -/

/-- Accumulator lemma for `Nat.toDigitsCore`. -/
theorem toDigitsCore_append (fuel : Nat) : ∀ (n : Nat) (ds : List Char),
    Nat.toDigitsCore 10 fuel n ds = Nat.toDigitsCore 10 fuel n [] ++ ds := by
  induction fuel with
  | zero => intro n ds; simp [Nat.toDigitsCore]
  | succ f ih =>
    intro n ds
    simp only [Nat.toDigitsCore]
    by_cases h : n / 10 = 0
    · simp [h]
    · simp only [h, if_neg, ite_false]
      rw [ih (n / 10) (Nat.digitChar (n % 10) :: ds), ih (n / 10) [Nat.digitChar (n % 10)]]
      simp

/-- Fuel irrelevance for `Nat.toDigitsCore` with empty accumulator. -/
theorem toDigitsCore_fuel : ∀ (f₁ f₂ n : Nat), n < f₁ → n < f₂ →
    Nat.toDigitsCore 10 f₁ n [] = Nat.toDigitsCore 10 f₂ n [] := by
  intro f₁
  induction f₁ with
  | zero => intro f₂ n h₁; omega
  | succ f ih =>
    intro f₂ n h₁ h₂
    match f₂, h₂ with
    | f₂ + 1, h₂ =>
      simp only [Nat.toDigitsCore]
      by_cases h : n / 10 = 0
      · simp [h]
      · simp only [h, ite_false]
        rw [toDigitsCore_append f, toDigitsCore_append f₂]
        have hn : 0 < n := by
          rcases Nat.eq_zero_or_pos n with h0 | h0
          · subst h0; simp at h
          · exact h0
        have hlt : n / 10 < n := Nat.div_lt_self hn (by norm_num)
        rw [ih f₂ (n / 10) (by omega) (by omega)]

/-- One-digit case of `Nat.toDigits`. -/
theorem toDigits_lt_10 (n : Nat) (h : n < 10) : Nat.toDigits 10 n = [Nat.digitChar n] := by
  simp only [Nat.toDigits, Nat.toDigitsCore]
  have : n / 10 = 0 := Nat.div_eq_of_lt h
  simp [this, Nat.mod_eq_of_lt h]

/-- Recursive case of `Nat.toDigits`. -/
theorem toDigits_ge_10 (n : Nat) (h : 10 ≤ n) :
    Nat.toDigits 10 n = Nat.toDigits 10 (n / 10) ++ [Nat.digitChar (n % 10)] := by
  simp only [Nat.toDigits, Nat.toDigitsCore]
  have h0 : ¬ n / 10 = 0 := by
    have h10 : 10 / 10 ≤ n / 10 := Nat.div_le_div_right h
    simp at h10; omega
  simp only [h0, ite_false]
  rw [toDigitsCore_append n]
  congr 1
  exact toDigitsCore_fuel n (n / 10 + 1) (n / 10)
    (Nat.div_lt_self (by omega) (by norm_num)) (Nat.lt_succ_self _)

/-- The list `Nat.toDigits` never returns the empty list. -/
theorem toDigits_ne_nil (n : Nat) : Nat.toDigits 10 n ≠ [] := by
  by_cases h : n < 10
  · rw [toDigits_lt_10 n h]; simp
  · rw [toDigits_ge_10 n (by omega)]; simp

/-- The map `Nat.digitChar` is injective below 10. -/
theorem digitChar_inj : ∀ a < 10, ∀ b < 10, Nat.digitChar a = Nat.digitChar b → a = b := by
  decide

/-- The map `Nat.toDigits 10` is injective. -/
theorem toDigits_inj : ∀ (a b : Nat), Nat.toDigits 10 a = Nat.toDigits 10 b → a = b := by
  intro a
  induction a using Nat.strong_induction_on with
  | _ a ih =>
    intro b hab
    by_cases ha : a < 10
    · by_cases hb : b < 10
      · rw [toDigits_lt_10 a ha, toDigits_lt_10 b hb] at hab
        exact digitChar_inj a ha b hb (by injection hab)
      · rw [toDigits_lt_10 a ha, toDigits_ge_10 b (by omega)] at hab
        have hlen := congrArg List.length hab
        simp at hlen
        exact absurd hlen (toDigits_ne_nil _)
    · by_cases hb : b < 10
      · rw [toDigits_ge_10 a (by omega), toDigits_lt_10 b hb] at hab
        have hlen := congrArg List.length hab
        simp at hlen
        exact absurd hlen (toDigits_ne_nil _)
      · rw [toDigits_ge_10 a (by omega), toDigits_ge_10 b (by omega)] at hab
        have hparts := List.append_inj' hab (by simp)
        have hdiv : a / 10 = b / 10 :=
          ih (a / 10) (Nat.div_lt_self (by omega) (by norm_num)) (b / 10) hparts.1
        have hmod : a % 10 = b % 10 := by
          have h2 := hparts.2
          simp at h2
          exact digitChar_inj _ (Nat.mod_lt a (by norm_num)) _ (Nat.mod_lt b (by norm_num)) h2
        omega

/-- The numeral printer `Nat.repr` is injective. -/
theorem natRepr_inj (a b : Nat) (h : Nat.repr a = Nat.repr b) : a = b := by
  apply toDigits_inj
  have h2 : (Nat.toDigits 10 a).asString = (Nat.toDigits 10 b).asString := h
  simpa [List.asString] using congrArg String.data h2

/-- Distinct counters give distinct reference ids. -/
theorem refName_inj (a b : Nat) (h : refName a = refName b) : a = b := by
  apply natRepr_inj
  have hd := congrArg String.data h
  simp only [refName, String.data_append] at hd
  have hr := List.append_cancel_left hd
  exact String.ext hr

/-! ### Registry lemmas -/

/-- A successful lookup is a map entry. -/
theorem lookupRef_mem : ∀ {m : List (String × Nat)} {s : String} {k : Nat},
    lookupRef m s = some k → (s, k) ∈ m := by
  intro m
  induction m with
  | nil => intro s k h; simp [lookupRef] at h
  | cons p rest ih =>
    intro s k h
    obtain ⟨r', k'⟩ := p
    rw [lookupRef] at h
    by_cases hr : r' = s
    · subst hr
      simp at h
      subst h
      exact List.mem_cons_self _ _
    · rw [if_neg hr] at h
      exact List.mem_cons_of_mem _ (ih h)

/-- With no duplicate keys, every map entry is found by lookup. -/
theorem mem_lookupRef : ∀ {m : List (String × Nat)} {s : String} {k : Nat},
    (m.map Prod.fst).Nodup → (s, k) ∈ m → lookupRef m s = some k := by
  intro m
  induction m with
  | nil => intro s k _ h; simp at h
  | cons p rest ih =>
    intro s k hnd h
    obtain ⟨r', k'⟩ := p
    simp only [List.map_cons, List.nodup_cons] at hnd
    rw [List.mem_cons] at h
    rcases h with h | h
    · have hs : s = r' := congrArg Prod.fst h
      have hk2 : k = k' := congrArg Prod.snd h
      rw [lookupRef, if_pos hs.symm, hk2]
    · rw [lookupRef]
      by_cases hr : r' = s
      · subst hr
        exfalso
        exact hnd.1 (List.mem_map_of_mem Prod.fst h)
      · rw [if_neg hr]
        exact ih hnd.2 h

/-- Deleting a key makes its lookup fail. -/
theorem lookupRef_deleteRef (m : List (String × Nat)) (r : String) :
    lookupRef (deleteRef m r) r = none := by
  induction m with
  | nil => rfl
  | cons p rest ih =>
    obtain ⟨r', k'⟩ := p
    simp only [deleteRef, List.filter] at ih ⊢
    by_cases hr : r' = r
    · simp [hr]
      exact ih
    · have : (r' != r) = true := by simp [hr]
      rw [this]
      rw [lookupRef, if_neg hr]
      exact ih

/-- The reuse scan over an appended map. -/
theorem findExistingRef_append (dead : List Nat) (m₁ m₂ : List (String × Nat)) (e : Nat) :
    findExistingRef dead (m₁ ++ m₂) e =
      match findExistingRef dead m₁ e with
      | some r => some r
      | none => findExistingRef dead m₂ e := by
  induction m₁ with
  | nil => simp [findExistingRef]
  | cons p rest ih =>
    obtain ⟨r', k'⟩ := p
    rw [List.cons_append, findExistingRef, findExistingRef]
    by_cases h : derefEntry dead k' = some e
    · simp [h]
    · simp only [if_neg h]
      exact ih

/-- Every registry key is `refName n` for some positive `n` at most the
counter. -/
def refNamesBounded (reg : Registry) : Prop :=
  ∀ p ∈ reg.elementMap, ∃ n, 0 < n ∧ n ≤ reg.refCounter ∧ p.1 = refName n

/-- The registry's keys are pairwise distinct (JS object keys are). -/
def keysNodup (reg : Registry) : Prop :=
  (reg.elementMap.map Prod.fst).Nodup

/-- The session invariant of the registry. -/
def RegInv (reg : Registry) : Prop :=
  refNamesBounded reg ∧ keysNodup reg

/-- No registry mutation ever decreases the counter. -/
theorem regStep_counter_mono (reg : Registry) (op : RegOp) :
    reg.refCounter ≤ (regStep reg op).refCounter := by
  cases op with
  | alloc e dead =>
    cases h : findExistingRef dead reg.elementMap e with
    | some r => simp [regStep, allocOrReuse, h]
    | none => simp [regStep, allocOrReuse, h]
  | failedLookup r => simp [regStep]
  | sweep dead => simp [regStep]

/-- Every registry mutation preserves the session invariant. -/
theorem regStep_inv {reg : Registry} (h : RegInv reg) (op : RegOp) : RegInv (regStep reg op) := by
  obtain ⟨hb, hnd⟩ := h
  cases op with
  | alloc e dead =>
    cases hf : findExistingRef dead reg.elementMap e with
    | some r =>
      simp only [regStep, allocOrReuse, hf]
      exact ⟨hb, hnd⟩
    | none =>
      simp only [regStep, allocOrReuse, hf]
      constructor
      · intro p hp
        have hp' : p ∈ reg.elementMap ++ [(refName (reg.refCounter + 1), e)] := hp
        show ∃ n, 0 < n ∧ n ≤ reg.refCounter + 1 ∧ p.1 = refName n
        rw [List.mem_append] at hp'
        rcases hp' with hm | hm
        · obtain ⟨n, hn1, hn2, hn3⟩ := hb p hm
          exact ⟨n, hn1, by omega, hn3⟩
        · simp at hm
          exact ⟨reg.refCounter + 1, by omega, le_refl _, by rw [hm]⟩
      · show ((reg.elementMap ++ [(refName (reg.refCounter + 1), e)]).map Prod.fst).Nodup
        rw [List.map_append]
        rw [List.nodup_append]
        refine ⟨hnd, by simp, ?_⟩
        intro a ha hmem
        simp at hmem
        subst hmem
        have : ∃ p ∈ reg.elementMap, p.1 = refName (reg.refCounter + 1) := by
          rw [List.mem_map] at ha
          obtain ⟨p, hp, hp1⟩ := ha
          exact ⟨p, hp, hp1⟩
        obtain ⟨p, hp, hp1⟩ := this
        obtain ⟨n, hn1, hn2, hn3⟩ := hb p hp
        have := refName_inj n (reg.refCounter + 1) (hn3 ▸ hp1)
        omega
  | failedLookup r =>
    constructor
    · intro p hp
      exact hb p (List.mem_of_mem_filter hp)
    · exact ((List.filter_sublist _).map Prod.fst).nodup hnd
  | sweep dead =>
    constructor
    · intro p hp
      exact hb p (List.mem_of_mem_filter hp)
    · exact ((List.filter_sublist _).map Prod.fst).nodup hnd

/-- One mutation cannot rebind a reference of bounded index to a new
element: whatever its lookup returns afterwards, it returned before. -/
theorem regStep_lookup_stable {reg : Registry} {r : String} {e : Nat} {n : Nat}
    (hinv : RegInv reg) (hn : 0 < n ∧ n ≤ reg.refCounter ∧ r = refName n)
    (hprev : ∀ k, lookupRef reg.elementMap r = some k → k = e) (op : RegOp) :
    ∀ k, lookupRef (regStep reg op).elementMap r = some k → k = e := by
  obtain ⟨hb, hnd⟩ := hinv
  intro k hk
  have hkmem := lookupRef_mem hk
  cases op with
  | alloc e₀ dead =>
    cases hf : findExistingRef dead reg.elementMap e₀ with
    | some r₀ =>
      simp only [regStep, allocOrReuse, hf] at hk
      exact hprev k hk
    | none =>
      simp only [regStep, allocOrReuse, hf] at hkmem
      rw [List.mem_append] at hkmem
      rcases hkmem with hm | hm
      · exact hprev k (mem_lookupRef hnd hm)
      · simp at hm
        exfalso
        have := refName_inj n (reg.refCounter + 1) (by rw [← hn.2.2, hm.1])
        omega
  | failedLookup r₀ =>
    have hm : (r, k) ∈ reg.elementMap := by
      have h3 : (r, k) ∈ deleteRef reg.elementMap r₀ := hkmem
      simp only [deleteRef, List.mem_filter] at h3
      exact h3.1
    exact hprev k (mem_lookupRef hnd hm)
  | sweep dead =>
    have hm : (r, k) ∈ reg.elementMap := by
      have h3 : (r, k) ∈ sweepMap dead reg.elementMap := hkmem
      simp only [sweepMap, List.mem_filter] at h3
      exact h3.1
    exact hprev k (mem_lookupRef hnd hm)

/-- Running a trace preserves the invariant. -/
theorem regRun_inv {reg : Registry} (h : RegInv reg) (ops : List RegOp) :
    RegInv (regRun reg ops) := by
  induction ops generalizing reg with
  | nil => exact h
  | cons op rest ih => exact ih (regStep_inv h op)

/-- Lookup stability along a whole trace. -/
theorem regRun_lookup_stable {reg : Registry} {r : String} {e : Nat} {n : Nat}
    (hinv : RegInv reg) (hn : 0 < n ∧ n ≤ reg.refCounter ∧ r = refName n)
    (hprev : ∀ k, lookupRef reg.elementMap r = some k → k = e) (ops : List RegOp) :
    ∀ k, lookupRef (regRun reg ops).elementMap r = some k → k = e := by
  induction ops generalizing reg with
  | nil => exact hprev
  | cons op rest ih =>
    have hmono := regStep_counter_mono reg op
    exact ih (regStep_inv hinv op)
      ⟨hn.1, le_trans hn.2.1 hmono, hn.2.2⟩
      (regStep_lookup_stable hinv hn hprev op)

/-- The fresh registry satisfies the invariant. -/
theorem regInit_inv : RegInv regInit := by
  constructor
  · intro p hp; simp [regInit] at hp
  · simp [regInit, keysNodup]

/-! ### Concrete fixtures used by witnesses and counterexamples -/

/-- A 800×600 viewport. -/
def w0 : Window := ⟨800, 600⟩

/-- A bare `<body>` with no attributes. -/
def bodyElem : ElemData := { eid := 0, tagName := "body", attrs := [] }

/-- A nameless `<button>`. -/
def buttonElem : ElemData := { eid := 1, tagName := "button", attrs := [] }

/-- A plain layout `<div>` with no attributes: excluded by the default
inclusion policy. -/
def wrapperElem : ElemData := { eid := 2, tagName := "div", attrs := [] }

/-- The tree `<body></body>`. -/
def bareBody : DomNode := .elem bodyElem []

/-- The tree `<body><button></button></body>`. -/
def bodyButton : DomNode := .elem bodyElem [.elem buttonElem []]

/-- The interactive button nested inside `m` plain div wrappers. -/
def wrapChain : Nat → DomNode
  | 0 => .elem buttonElem []
  | m + 1 => .elem wrapperElem [wrapChain m]

/-- The tree `<body>` around `wrapChain m`. -/
def wrapBody (m : Nat) : DomNode := .elem bodyElem [wrapChain m]

/-! ### Claim C1 -/

/-- Claim C1: identity stability of reference allocation.  If the registry
already holds a handle that dereferences to the element, allocation
returns that existing reference id and leaves the registry unchanged; and
for a live element allocation is idempotent: a second allocation
(as performed by the next snapshot pass with no intervening mutation)
returns the same reference id as the first. -/
theorem allocOrReuse_identity_stable (dead : List Nat) (reg : Registry) (e : Nat)
    (hlive : e ∉ dead) :
    (∀ r, findExistingRef dead reg.elementMap e = some r → allocOrReuse dead reg e = (r, reg)) ∧
    (allocOrReuse dead (allocOrReuse dead reg e).2 e).1 = (allocOrReuse dead reg e).1 := by
  constructor
  · intro r hr
    simp [allocOrReuse, hr]
  · cases hf : findExistingRef dead reg.elementMap e with
    | some r => simp [allocOrReuse, hf]
    | none =>
      have h2 : findExistingRef dead
          (reg.elementMap ++ [(refName (reg.refCounter + 1), e)]) e =
            some (refName (reg.refCounter + 1)) := by
        rw [findExistingRef_append, hf]
        simp [findExistingRef, derefEntry, hlive]
      simp only [allocOrReuse, hf]
      simp [h2]

/-- Witness for C1 at a concrete live element and the fresh registry. -/
theorem allocOrReuse_identity_stable_witness :
    (0 : Nat) ∉ ([] : List Nat) ∧
      (allocOrReuse [] (allocOrReuse [] regInit 0).2 0).1 = (allocOrReuse [] regInit 0).1 :=
  ⟨by decide, (allocOrReuse_identity_stable [] regInit 0 (by decide)).2⟩

/-! ### Claim C2 -/

/-- Claim C2: stale-reference resolution is failure-valued and
self-cleaning.  For a registry entry whose element has been garbage
collected (`k ∈ dead`) or detached (`findElem doc k = none`), both the
locator script and the form-input script return the structured failure
envelope whose message names the reference (they are total functions, so
nothing is thrown), and the registry entry is deleted by the failed
lookup. -/
theorem staleRef_resolution_fails_and_cleans (doc : DomNode) (dead : List Nat)
    (emap : List (String × Nat)) (r : String) (k : Nat) (v : JSValue)
    (hlook : lookupRef emap r = some k) (hstale : k ∈ dead ∨ findElem doc k = none) :
    getElementScript doc dead emap r =
      (.failure "get_element"
        ("No element found with reference: \"" ++ r ++
          "\". The element may have been removed from the page."), deleteRef emap r) ∧
    formInputScript doc dead emap r v =
      (.failure "form_input"
        ("No element found with reference: \"" ++ r ++
          "\". The element may have been removed from the page."), deleteRef emap r, none) ∧
    lookupRef (deleteRef emap r) r = none := by
  have hnone : (if k ∈ dead then none else findElem doc k) = none := by
    rcases hstale with h | h
    · simp [h]
    · simp [h]
  refine ⟨?_, ?_, lookupRef_deleteRef emap r⟩
  · simp [getElementScript, hlook, hnone, notFoundMsg]
  · simp [formInputScript, hlook, hnone, notFoundMsg]

/-- Witness for C2: a registry entry for a detached element. -/
theorem staleRef_resolution_fails_and_cleans_witness :
    lookupRef [("ref_1", 9)] "ref_1" = some 9 ∧
      ((9 : Nat) ∈ ([] : List Nat) ∨ findElem bareBody 9 = none) ∧
      getElementScript bareBody [] [("ref_1", 9)] "ref_1" =
        (.failure "get_element"
          ("No element found with reference: \"" ++ "ref_1" ++
            "\". The element may have been removed from the page."),
         deleteRef [("ref_1", 9)] "ref_1") :=
  ⟨by decide, Or.inr rfl,
    (staleRef_resolution_fails_and_cleans bareBody [] [("ref_1", 9)] "ref_1" 9
      (.str "x") (by decide) (Or.inr rfl)).1⟩

/-! ### Claim C3 (corrected) -/

/-- Counterexample to claim C3 as stated: after one snapshot pass over a
page whose registry holds `"ref_1" ↦ element 5`, where element 5 is alive
(not garbage collected, so its weak handle still dereferences) but
detached (it is not in the document), the sweep keeps the entry: a
registry entry remains whose handle does not resolve to an attached
element. -/
theorem sweep_keeps_detached_entry_cex :
    ("ref_1", 5) ∈
      (generateAccessibilityTree (some bareBody) w0 [] .absent ⟨[("ref_1", 5)], 5⟩).2.elementMap ∧
    (findElem bareBody 5).isNone = true := by
  decide

/-- Claim C3 amended: the end-of-snapshot sweep removes entries whose
handle fails to *dereference* (garbage-collected elements); after it, no
registry entry for a collected element remains.  (An entry whose element
is alive but detached may survive the sweep — see the counterexample —
and is deleted on failed resolution instead, per C2.) -/
theorem sweep_removes_collected (body? : Option DomNode) (w : Window) (dead : List Nat)
    (filter : FilterType) (reg : Registry) :
    ∀ p ∈ (generateAccessibilityTree body? w dead filter reg).2.elementMap, p.2 ∉ dead := by
  intro p hp
  have hp' : p ∈ sweepMap dead
      (match body? with
        | some body => processElement ⟨body, w, dead, filter⟩ body 0 ⟨[], reg⟩
        | none => (⟨[], reg⟩ : SnapState)).reg.elementMap := hp
  simp only [sweepMap, List.mem_filter] at hp'
  have h2 := hp'.2
  simp only [derefEntry] at h2
  by_cases hd : p.2 ∈ dead
  · rw [if_pos hd] at h2
    simp at h2
  · exact hd

/-- Witness for C3 amended: a live entry survives a sweep whose dead set
is `[3]`, and its element is indeed not collected. -/
theorem sweep_removes_collected_witness : (5 : Nat) ∉ [3] :=
  sweep_removes_collected (some bareBody) w0 [3] .absent ⟨[("ref_1", 5)], 5⟩
    ("ref_1", 5) (by decide)

/-! ### Claim C4 (corrected) -/

/-- Counterexample to claim C4 as stated: for a document whose body is
present but is a bare, nameless, attribute-less element with no includable
descendants, the root's own line `- generic [ref=ref_1]` is dropped by the
post-filter, and the returned snapshot text is empty. -/
theorem snapshot_text_can_be_empty_cex :
    (generateAccessibilityTree (some bareBody) w0 [] .absent regInit).1.pageContent = "" := by
  decide

/-! ### Claim C10 -/

/-- Claim C10: no-reuse invariant for reference ids.  Freshly minted ids
come from the strictly increasing counter and a deleted entry is never
recreated, so over a whole page session (any trace of allocations,
failed-lookup deletions and sweeps from the fresh registry) a reference id
is bound to at most one element: if `r` resolves to `e` at some point and
to `e'` at any later point, then `e' = e`. -/
theorem refId_binding_unique (ops₁ ops₂ : List RegOp) (r : String) (e e' : Nat)
    (h1 : lookupRef (regRun regInit ops₁).elementMap r = some e)
    (h2 : lookupRef (regRun regInit (ops₁ ++ ops₂)).elementMap r = some e') : e' = e := by
  have hinv := regRun_inv regInit_inv ops₁
  obtain ⟨n, hn1, hn2, hn3⟩ := hinv.1 _ (lookupRef_mem h1)
  have h12 : regRun regInit (ops₁ ++ ops₂) = regRun (regRun regInit ops₁) ops₂ := by
    simp [regRun, List.foldl_append]
  rw [h12] at h2
  refine regRun_lookup_stable hinv ⟨hn1, hn2, hn3⟩ ?_ ops₂ e' h2
  intro k hk
  rw [h1] at hk
  exact (Option.some.inj hk).symm

/-- Witness for C10: a session that allocates, sweeps and allocates again
never rebinds `"ref_1"`. -/
theorem refId_binding_unique_witness :
    lookupRef (regRun regInit [.alloc 7 []]).elementMap "ref_1" = some 7 ∧
      lookupRef (regRun regInit ([.alloc 7 []] ++ [.sweep [], .alloc 8 []])).elementMap "ref_1" =
        some 7 ∧ (7 : Nat) = 7 :=
  ⟨by decide, by decide,
    refId_binding_unique [.alloc 7 []] [.sweep [], .alloc 8 []] "ref_1" 7 7
      (by decide) (by decide)⟩

/-! ### Claim C7 -/

/-- Claim C7: checkbox `setValue` postcondition.  On a checkbox input, a
boolean argument `b` succeeds with `element_type:"checkbox"`,
`previous_value` the checked state before the call and `new_value = b`;
the element's checked state becomes `b`, it is focused, and exactly one
bubbling `"change"` event followed by exactly one bubbling `"input"` event
is dispatched.  Any non-boolean argument yields the structured failure
and nothing else. -/
theorem checkbox_setValue_spec (d : ElemData) (cs : List DomNode) (r : String) (v : JSValue)
    (htag : lowerStr d.tagName = "input") (htype : inputTypeProp d = "checkbox") :
    (∀ b, v = .bool b →
      applyFormInput d cs r v =
        (.success "form_input" r "checkbox" (.bool d.checked) (.bool b)
          ("Checkbox " ++ (if b then "checked" else "unchecked")),
         ⟨{ d with checked := b }, true, [("change", true), ("input", true)]⟩)) ∧
    ((∀ b, v ≠ .bool b) →
      applyFormInput d cs r v =
        (.failure "form_input" "Checkbox requires a boolean value (true/false)",
         ⟨d, false, []⟩)) := by
  constructor
  · intro b hb
    subst hb
    simp [applyFormInput, htag, htype]
  · intro hnb
    cases v with
    | bool b => exact absurd rfl (hnb b)
    | str s => simp [applyFormInput, htag, htype]
    | num n => simp [applyFormInput, htag, htype]
    | null => simp [applyFormInput, htag, htype]
    | undef => simp [applyFormInput, htag, htype]

/-- Witness for C7: checking an unchecked checkbox. -/
theorem checkbox_setValue_spec_witness :
    applyFormInput { eid := 3, tagName := "input", attrs := [("type", "checkbox")] } [] "ref_4"
        (.bool true) =
      (.success "form_input" "ref_4" "checkbox" (.bool false) (.bool true) "Checkbox checked",
       ⟨{ eid := 3, tagName := "input", attrs := [("type", "checkbox")], checked := true },
        true, [("change", true), ("input", true)]⟩) :=
  (checkbox_setValue_spec { eid := 3, tagName := "input", attrs := [("type", "checkbox")] }
    [] "ref_4" (.bool true) (by decide) (by decide)).1 true rfl

/-! ### Claim C8 -/

/-- Specification of the option-matching loop: on `none` no option
matches; on `some j` (started at `i`) the option at position `j - i`
matches and all earlier positions do not. -/
theorem firstMatchIdxAux_spec (s : String) :
    ∀ (l : List (ElemData × List DomNode)) (i : Nat),
      (firstMatchIdxAux s l i = none → ∀ o ∈ l, optValue o ≠ s ∧ optText o ≠ s) ∧
      (∀ j, firstMatchIdxAux s l i = some j → i ≤ j ∧ j - i < l.length ∧
        (∃ o, l.get? (j - i) = some o ∧ (optValue o = s ∨ optText o = s)) ∧
        ∀ m o', m < j - i → l.get? m = some o' → optValue o' ≠ s ∧ optText o' ≠ s) := by
  intro l
  induction l with
  | nil =>
    intro i
    constructor
    · intro _ o ho; simp at ho
    · intro j hj; simp [firstMatchIdxAux] at hj
  | cons o rest ih =>
    intro i
    by_cases hm : (optValue o == s || optText o == s) = true
    · constructor
      · intro hn
        rw [firstMatchIdxAux, if_pos hm] at hn
        simp at hn
      · intro j hj
        rw [firstMatchIdxAux, if_pos hm] at hj
        have hji : j = i := (Option.some.inj hj).symm
        subst hji
        refine ⟨le_refl _, by simp, ⟨o, by simp, ?_⟩, ?_⟩
        · simp at hm
          rcases hm with h | h
          · exact Or.inl h
          · exact Or.inr h
        · intro m o' hlt
          omega
    · have hm' : (optValue o == s || optText o == s) = false := by
        simp only [Bool.not_eq_true] at hm
        exact hm
      have hno : optValue o ≠ s ∧ optText o ≠ s := by
        simp at hm'
        exact hm'
      constructor
      · intro hn o' ho'
        rw [firstMatchIdxAux, if_neg (by simp [hm'])] at hn
        rcases List.mem_cons.mp ho' with h | h
        · subst h; exact hno
        · exact (ih (i + 1)).1 hn o' h
      · intro j hj
        rw [firstMatchIdxAux, if_neg (by simp [hm'])] at hj
        obtain ⟨h1, h2, ⟨o₀, ho₀, hmatch⟩, hfirst⟩ := (ih (i + 1)).2 j hj
        have hij : i < j := by omega
        have hdiff : j - i = (j - (i + 1)) + 1 := by omega
        refine ⟨by omega, by simp; omega, ⟨o₀, ?_, hmatch⟩, ?_⟩
        · rw [hdiff]; simpa using ho₀
        · intro m o' hlt hget
          match m with
          | 0 =>
            simp at hget
            rw [← hget]
            exact hno
          | m' + 1 =>
            have : m' < j - (i + 1) := by omega
            exact hfirst m' o' this (by simpa using hget)

/-- Claim C8: select `setValue` matching and failure enumeration.  On a
select element: success iff the stringified argument equals some option's
value or text; when the first matching index is `i`, that option becomes
selected (`selectedIndex := i`, with `i` matching and all earlier options
not matching); when none matches, the failure message lists every
option's text and value pair. -/
theorem select_setValue_spec (d : ElemData) (cs : List DomNode) (r : String) (v : JSValue)
    (htag : lowerStr d.tagName = "select") :
    ((applyFormInput d cs r v).1.isSuccess = true ↔
      ∃ o ∈ optionsOf cs, optValue o = jsToString v ∨ optText o = jsToString v) ∧
    (∀ i, firstMatchIdx (optionsOf cs) (jsToString v) = some i →
      applyFormInput d cs r v =
        (.success "form_input" r "select" (.str (selectValue d cs))
          (.str (selectValue { d with selectedIndex := Int.ofNat i } cs))
          ("Selected option \"" ++ jsToString v ++ "\" in dropdown"),
         ⟨{ d with selectedIndex := Int.ofNat i }, true, [("change", true), ("input", true)]⟩) ∧
      (∃ o, (optionsOf cs).get? i = some o ∧
        (optValue o = jsToString v ∨ optText o = jsToString v)) ∧
      (∀ m o', m < i → (optionsOf cs).get? m = some o' →
        optValue o' ≠ jsToString v ∧ optText o' ≠ jsToString v)) ∧
    (firstMatchIdx (optionsOf cs) (jsToString v) = none →
      applyFormInput d cs r v =
        (.failure "form_input"
          ("Option \"" ++ jsToString v ++ "\" not found. Available options: " ++
            String.intercalate ", "
              ((optionsOf cs).map
                (fun o => "\"" ++ optText o ++ "\" (value: \"" ++ optValue o ++ "\")"))),
         ⟨d, false, []⟩)) := by
  refine ⟨?_, ?_, ?_⟩
  · constructor
    · intro hs
      cases hf : firstMatchIdx (optionsOf cs) (jsToString v) with
      | none =>
        exfalso
        simp only [applyFormInput, htag, if_pos rfl, hf] at hs
        simp [FormResult.isSuccess] at hs
      | some i =>
        obtain ⟨_, _, ⟨o, ho, hmatch⟩, _⟩ := (firstMatchIdxAux_spec (jsToString v)
          (optionsOf cs) 0).2 i hf
        exact ⟨o, List.get?_mem (by simpa using ho), by simpa using hmatch⟩
    · intro ⟨o, ho, hmatch⟩
      cases hf : firstMatchIdx (optionsOf cs) (jsToString v) with
      | none =>
        exfalso
        exact absurd hmatch
          (by
            have := (firstMatchIdxAux_spec (jsToString v) (optionsOf cs) 0).1 hf o ho
            tauto)
      | some i =>
        simp [applyFormInput, htag, hf, FormResult.isSuccess]
  · intro i hf
    obtain ⟨_, _, ⟨o, ho, hmatch⟩, hfirst⟩ := (firstMatchIdxAux_spec (jsToString v)
      (optionsOf cs) 0).2 i hf
    refine ⟨by simp [applyFormInput, htag, hf], ⟨o, by simpa using ho, by simpa using hmatch⟩, ?_⟩
    intro m o' hlt hget
    exact hfirst m o' (by simpa using hlt) hget
  · intro hf
    simp [applyFormInput, htag, hf]

/-- The fixture `<select><option value="b">Blue</option></select>`: the element. -/
def selectElem : ElemData := { eid := 4, tagName := "select", attrs := [] }

/-- The children of the select fixture. -/
def selectKids : List DomNode :=
  [.elem { eid := 5, tagName := "option", attrs := [("value", "b")] } [.text "Blue"]]

/-- Witness for C8: `"Blue"` selects the option; `"Purple"` fails and the
message lists the one available option. -/
theorem select_setValue_spec_witness :
    firstMatchIdx (optionsOf selectKids) (jsToString (.str "Purple")) = none ∧
      applyFormInput selectElem selectKids "ref_5" (.str "Purple") =
        (.failure "form_input"
          "Option \"Purple\" not found. Available options: \"Blue\" (value: \"b\")",
         ⟨selectElem, false, []⟩) := by
  refine ⟨by decide, ?_⟩
  rw [(select_setValue_spec selectElem selectKids "ref_5" (.str "Purple")
    (by decide)).2.2 (by decide)]
  decide

/-! ### Claim C9 -/

/-- Claim C9: failure atomicity of `setValue`.  Whenever the control
dispatch returns a failure (unmatched select option, non-boolean checkbox
value, non-numeric range or number value, unsupported control type), the
element's state is unchanged — value, checked state and selection
included — the element is not focused, and no event is dispatched. -/
theorem setValue_failure_atomic (d : ElemData) (cs : List DomNode) (r : String) (v : JSValue)
    (h : (applyFormInput d cs r v).1.isSuccess = false) :
    (applyFormInput d cs r v).2 = ⟨d, false, []⟩ := by
  by_cases h1 : lowerStr d.tagName = "select"
  · cases hf : firstMatchIdx (optionsOf cs) (jsToString v) with
    | none => simp [applyFormInput, h1, hf]
    | some i =>
      exfalso
      simp [applyFormInput, h1, hf, FormResult.isSuccess] at h
  · by_cases ht : lowerStr d.tagName = "input"
    · by_cases c1 : inputTypeProp d = "checkbox"
      · cases v with
        | bool b =>
          exfalso
          simp [applyFormInput, h1, ht, c1, FormResult.isSuccess] at h
        | str s => simp [applyFormInput, h1, ht, c1]
        | num n => simp [applyFormInput, h1, ht, c1]
        | null => simp [applyFormInput, h1, ht, c1]
        | undef => simp [applyFormInput, h1, ht, c1]
      · by_cases c2 : inputTypeProp d = "radio"
        · exfalso
          simp [applyFormInput, h1, ht, c1, c2, FormResult.isSuccess] at h
        · by_cases c3 : inputTypeProp d = "date" ∨ inputTypeProp d = "time" ∨
              inputTypeProp d = "datetime-local" ∨ inputTypeProp d = "month" ∨
              inputTypeProp d = "week"
          · exfalso
            simp [applyFormInput, h1, ht, c1, c2, c3, FormResult.isSuccess] at h
          · by_cases c4 : inputTypeProp d = "range"
            · cases hn : jsToNumber v with
              | none => simp [applyFormInput, h1, ht, c1, c2, c3, c4, hn]
              | some m =>
                exfalso
                simp [applyFormInput, h1, ht, c1, c2, c3, c4, hn,
                  FormResult.isSuccess] at h
            · by_cases c5 : inputTypeProp d = "number"
              · by_cases c5b : ((jsToNumber v).isNone && v != JSValue.str "") = true
                · simp [applyFormInput, h1, ht, c1, c2, c3, c4, c5, c5b]
                · exfalso
                  simp [applyFormInput, h1, ht, c1, c2, c3, c4, c5, c5b,
                    FormResult.isSuccess] at h
              · exfalso
                simp [applyFormInput, h1, ht, c1, c2, c3, c4, c5,
                  FormResult.isSuccess] at h
    · by_cases htx : lowerStr d.tagName = "textarea"
      · exfalso
        simp [applyFormInput, h1, ht, htx, FormResult.isSuccess] at h
      · simp [applyFormInput, h1, ht, htx]

/-- Witness for C9: a non-numeric value against a range input leaves the
control untouched. -/
theorem setValue_failure_atomic_witness :
    ((applyFormInput { eid := 6, tagName := "input", attrs := [("type", "range")] } [] "ref_6"
        (.str "abc")).1.isSuccess = false) ∧
      (applyFormInput { eid := 6, tagName := "input", attrs := [("type", "range")] } [] "ref_6"
          (.str "abc")).2 =
        ⟨{ eid := 6, tagName := "input", attrs := [("type", "range")] }, false, []⟩ :=
  ⟨by decide,
    setValue_failure_atomic { eid := 6, tagName := "input", attrs := [("type", "range")] } []
      "ref_6" (.str "abc") (by decide)⟩

/-! ### Claim C5 (corrected) -/

/-- Counterexample to claim C5 as stated: for a body containing one
nameless button, running the default-filter snapshot and then the
interactive-filter snapshot (same page, shared registry), the interactive
output consists of the button's line, but the default output's only line
is that same name-less line: it contains no quote character, while every
serialized accessible name is quoted, so the default output has *no* line
carrying a non-empty accessible name.  The interactive line set is
therefore not a subset of the default lines that carry a name. -/
theorem interactive_line_without_name_cex :
    ((generateAccessibilityTree (some bodyButton) w0 [] .interactive
        (generateAccessibilityTree (some bodyButton) w0 [] .absent regInit).2).1.pageContent =
      "  - button [ref=ref_2]") ∧
    ((generateAccessibilityTree (some bodyButton) w0 [] .absent regInit).1.pageContent =
      "  - button [ref=ref_2]") ∧
    ("  - button [ref=ref_2]".data.all (fun c => c ≠ '"') = true) := by
  refine ⟨by decide, by decide, by decide⟩

/-- Reduction helper for the filter enum `BEq`. -/
theorem ftBeq_interactive_ne_all : (FilterType.interactive != FilterType.all) = true := rfl

/-- Reduction helper for the filter enum `BEq`. -/
theorem ftBeq_absent_ne_all : (FilterType.absent != FilterType.all) = true := rfl

/-- Reduction helper for the filter enum `BEq`. -/
theorem ftBeq_interactive_eq : (FilterType.interactive == FilterType.interactive) = true := rfl

/-- Reduction helper for the filter enum `BEq`. -/
theorem ftBeq_absent_ne_interactive : (FilterType.absent == FilterType.interactive) = false := rfl

/-- Claim C5 amended: inclusion-level filter monotonicity.  Every element
included under `filter="interactive"` is also included under the default
filter for the same document, window and garbage-collection state (the
original line-level subset statement fails because an interactive element
may have an empty accessible name — see the counterexample). -/
theorem interactive_include_implies_default_include (doc : DomNode) (w : Window)
    (dead : List Nat) (d : ElemData) (cs : List DomNode)
    (h : shouldIncludeElement ⟨doc, w, dead, .interactive⟩ d cs = true) :
    shouldIncludeElement ⟨doc, w, dead, .absent⟩ d cs = true := by
  simp [shouldIncludeElement, ftBeq_interactive_ne_all, ftBeq_absent_ne_all,
    ftBeq_interactive_eq, ftBeq_absent_ne_interactive] at h ⊢
  obtain ⟨hA, hB, hC, hD, hE⟩ := h
  exact ⟨hA, hB, hC, hD, Or.inl hE⟩

/-- Witness for C5 amended: the nameless button is included under both
filters. -/
theorem interactive_include_implies_default_include_witness :
    shouldIncludeElement ⟨bareBody, w0, [], .interactive⟩ buttonElem [] = true ∧
      shouldIncludeElement ⟨bareBody, w0, [], .absent⟩ buttonElem [] = true :=
  ⟨by decide,
    interactive_include_implies_default_include bareBody w0 [] buttonElem [] (by decide)⟩

/-- Auxiliary for C4: the traversal only ever appends to the emitted line
list (joint statement for the two mutually recursive functions, by strong
induction on the node size). -/
theorem process_result_extend (ctx : SnapCtx) :
    ∀ k : Nat,
      (∀ n : DomNode, sizeOf n ≤ k → ∀ depth st,
        ∃ u, (processElement ctx n depth st).result = st.result ++ u) ∧
      (∀ ns : List DomNode, sizeOf ns ≤ k → ∀ depth st,
        ∃ u, (processChildren ctx ns depth st).result = st.result ++ u) := by
  intro k
  induction k with
  | zero =>
    constructor
    · intro n hn
      exfalso
      cases n <;> simp at hn
    · intro ns hns
      exfalso
      cases ns <;> simp at hns
  | succ k ih =>
    constructor
    · intro n hn depth st
      cases n with
      | text s => exact ⟨[], by simp [processElement]⟩
      | elem d cs =>
        by_cases h15 : 15 < depth
        · exact ⟨[], by simp [processElement, h15]⟩
        · have hcs : sizeOf cs ≤ k := by
            simp at hn
            omega
          by_cases h14 : depth < 15
          · by_cases hinc :
              (shouldIncludeElement ctx d cs || depth == 0) = true
            · obtain ⟨u, hu⟩ := ih.2 cs hcs (depth + 1)
                ⟨st.result ++
                    [emitLine ctx d cs depth (allocOrReuse ctx.dead st.reg d.eid).1],
                  (allocOrReuse ctx.dead st.reg d.eid).2⟩
              refine ⟨[emitLine ctx d cs depth (allocOrReuse ctx.dead st.reg d.eid).1] ++ u, ?_⟩
              simp only [processElement, if_neg h15, hinc, if_pos h14, if_true]
              rw [hu]
              simp
            · have hinc' : (shouldIncludeElement ctx d cs || depth == 0) = false := by
                simp only [Bool.not_eq_true] at hinc
                exact hinc
              obtain ⟨u, hu⟩ := ih.2 cs hcs depth st
              refine ⟨u, ?_⟩
              simp only [processElement, if_neg h15, hinc', if_pos h14]
              simpa using hu
          · by_cases hinc :
              (shouldIncludeElement ctx d cs || depth == 0) = true
            · refine ⟨[emitLine ctx d cs depth (allocOrReuse ctx.dead st.reg d.eid).1], ?_⟩
              simp [processElement, if_neg h15, hinc, if_neg h14]
            · have hinc' : (shouldIncludeElement ctx d cs || depth == 0) = false := by
                simp only [Bool.not_eq_true] at hinc
                exact hinc
              refine ⟨[], ?_⟩
              simp [processElement, if_neg h15, hinc', if_neg h14]
    · intro ns hns depth st
      cases ns with
      | nil => exact ⟨[], by simp [processChildren]⟩
      | cons c rest =>
        have hc : sizeOf c ≤ k := by simp at hns; omega
        have hrest : sizeOf rest ≤ k := by simp at hns; omega
        obtain ⟨u₁, hu₁⟩ := ih.1 c hc depth st
        obtain ⟨u₂, hu₂⟩ := ih.2 rest hrest depth (processElement ctx c depth st)
        refine ⟨u₁ ++ u₂, ?_⟩
        simp only [processChildren]
        rw [hu₂, hu₁]
        simp

/-! ### Claim C4 amended theorem -/

/-- Claim C4 amended: the traversal root (depth 0) is always included and
always emits its line into the pre-filter line list — the line list grows
by the root's serialized line followed by whatever the children add.  (The
*returned text* can nevertheless be empty, because the post-filter may
drop the root's own line — see the counterexample.) -/
theorem root_always_emitted (ctx : SnapCtx) (d : ElemData) (cs : List DomNode)
    (st : SnapState) :
    ∃ t, (processElement ctx (.elem d cs) 0 st).result =
      st.result ++ emitLine ctx d cs 0 (allocOrReuse ctx.dead st.reg d.eid).1 :: t := by
  have h15 : ¬(15 < (0 : Nat)) := by omega
  have h14 : (0 : Nat) < 15 := by omega
  have hinc : (shouldIncludeElement ctx d cs || (0 : Nat) == 0) = true := by
    simp
  obtain ⟨u, hu⟩ := (process_result_extend ctx (sizeOf cs)).2 cs (le_refl _) 1
    ⟨st.result ++ [emitLine ctx d cs 0 (allocOrReuse ctx.dead st.reg d.eid).1],
      (allocOrReuse ctx.dead st.reg d.eid).2⟩
  refine ⟨u, ?_⟩
  simp only [processElement, if_neg h15, hinc, if_pos h14, if_true]
  rw [hu]
  simp

/-! ### Claim C6 -/

/-- The plain-div wrapper has no accessible name, whatever the document
and whatever single element it wraps. -/
theorem getCleanName_wrapper (doc : DomNode) (m : Nat) :
    getCleanName doc wrapperElem [wrapChain m] = "" := by
  cases m <;> rfl

/-- The plain-div wrapper is excluded by the default inclusion policy. -/
theorem shouldInclude_wrapper (doc : DomNode) (m : Nat) :
    shouldIncludeElement ⟨doc, w0, [], .absent⟩ wrapperElem [wrapChain m] = false := by
  cases m <;> rfl

/-- The body of the wrapper fixtures has no accessible name. -/
theorem getCleanName_wrapBody (doc : DomNode) (m : Nat) :
    getCleanName doc bodyElem [wrapChain m] = "" := by
  cases m <;> rfl

/-- One excluded wrapper layer is transparent to the traversal: it emits
nothing, allocates nothing, and passes the same depth on to its child. -/
theorem processElement_wrapper_step (doc : DomNode) (m : Nat) (st : SnapState) :
    processElement ⟨doc, w0, [], .absent⟩ (wrapChain (m + 1)) 1 st =
      processElement ⟨doc, w0, [], .absent⟩ (wrapChain m) 1 st := by
  show processElement ⟨doc, w0, [], .absent⟩ (.elem wrapperElem [wrapChain m]) 1 st = _
  simp only [processElement, processChildren, shouldInclude_wrapper doc m]
  norm_num

/-- Collapsing the wrapper chain: the traversal of the chain equals the
traversal of the bare button. -/
theorem processElement_chain (doc : DomNode) (m : Nat) (st : SnapState) :
    processElement ⟨doc, w0, [], .absent⟩ (wrapChain m) 1 st =
      processElement ⟨doc, w0, [], .absent⟩ (wrapChain 0) 1 st := by
  induction m with
  | zero => rfl
  | succ m ih => rw [processElement_wrapper_step doc m st]; exact ih

/-- Processing the bare button does not depend on the document root. -/
theorem processElement_button_doc (doc doc' : DomNode) (st : SnapState) :
    processElement ⟨doc, w0, [], .absent⟩ (wrapChain 0) 1 st =
      processElement ⟨doc', w0, [], .absent⟩ (wrapChain 0) 1 st := by
  rfl

/-- Claim C6: transparent excluded wrappers.  The traversal recurses into
children whether or not a node was included and advances the depth only
for included nodes, so the interactive button is visited and emitted for
*any* number of excluded wrapper divs around it: the snapshot text is the
button's line, independent of the nesting count. -/
theorem excluded_wrappers_transparent (m : Nat) :
    (generateAccessibilityTree (some (wrapBody m)) w0 [] .absent regInit).1.pageContent =
      "  - button [ref=ref_2]" := by
  show (String.intercalate "\n"
      ((processElement ⟨wrapBody m, w0, [], .absent⟩ (wrapBody m) 0
          ⟨[], regInit⟩).result.filter (fun line => !isBareGenericLine line))) = _
  rw [show wrapBody m = .elem bodyElem [wrapChain m] from rfl]
  simp only [processElement, processChildren, emitLine, getCleanName_wrapBody]
  norm_num
  rw [processElement_chain (.elem bodyElem [wrapChain m]) m]
  rw [processElement_button_doc (.elem bodyElem [wrapChain m]) bareBody]
  decide
